import Mathlib

/-!
Verification development for the story/image-generation core of the
`webHosting` repository (`src/projects/enterprise_ai_demo1_websearch`).

The Python modules `src/models.py`, `src/parser.py`, `src/client.py` and
`src/search_service.py` are shallowly embedded below.  Conventions:

* Python values flowing out of JSON / API responses are modelled by the
  inductive `PyVal` (the JSON fragment actually produced by
  `ImageGenerationClient._response_to_dict`: `None`, `bool`, `int`, `str`,
  `list`, `dict`).  Python floats are not part of that fragment and are
  not modelled; where the code converts a string through `int(float(s))`
  the composite conversion is a parameter of the embedding.
* A Python `datetime` is modelled by its epoch-second value as an `Int`;
  `datetime.now()` becomes an explicit parameter.
* Raised exceptions become `Except` errors: `PyErr.img` is the domain
  exception `ImageError`, `PyErr.exc name msg` any other Python exception
  (`ValueError`, `TypeError`, `OverflowError`, ...) identified by its
  class name.
* `bytes` values are modelled as `List Nat`.
* External effects (the OpenAI client calls, `requests.get`, file writes,
  the directory listing used by `os.path.exists`) are supplied through
  explicit environment records; the directory state is the list of entry
  names present in the base directory.
* Strings are treated through their character lists; the embedding of
  text transformations (`str.lower`, `re.sub` with `\w`/`\s`) is exact on
  the ASCII alphabet.
-/

namespace WebHosting

/-- Model of the Python/JSON values handled by the parser: the fragment
produced by `ImageGenerationClient._response_to_dict` and `json.loads`. -/
inductive PyVal where
  | vNone : PyVal
  | vBool (b : Bool) : PyVal
  | vInt (n : Int) : PyVal
  | vStr (s : String) : PyVal
  | vList (xs : List PyVal) : PyVal
  | vDict (kvs : List (String × PyVal)) : PyVal

/-- Python truthiness (`bool(v)`) for the modelled values. -/
def pyTruthy : PyVal → Bool
  | .vNone => false
  | .vBool b => b
  | .vInt n => n != 0
  | .vStr s => !s.data.isEmpty
  | .vList xs => !xs.isEmpty
  | .vDict kvs => !kvs.isEmpty

/-- `type(v).__name__` for the modelled values. -/
def typeName : PyVal → String
  | .vNone => "NoneType"
  | .vBool _ => "bool"
  | .vInt _ => "int"
  | .vStr _ => "str"
  | .vList _ => "list"
  | .vDict _ => "dict"

/-- The domain exception `ImageError` of `src/models.py` (code, message,
optional structured details). -/
structure ImageError where
  code : String
  message : String
  details : Option PyVal := Option.none

/-- A raised Python exception: either the domain `ImageError` or any other
exception identified by its class name and message. -/
inductive PyErr where
  | img (e : ImageError) : PyErr
  | exc (name : String) (msg : String) : PyErr

/-- `str(e)` for the exceptions the service interpolates into wrapped
error messages (only reached for non-`ImageError` exceptions, whose
`str` is the message). -/
def pyErrStr : PyErr → String
  | .exc _ m => m
  | .img e => "[" ++ e.code ++ "] " ++ e.message

/-- `d.get(k)` on a Python dict (first binding wins; Python dicts have
unique keys). Returns `none` when the key is absent, which Python reports
as `None`. -/
def dictGet (kvs : List (String × PyVal)) (k : String) : Option PyVal :=
  (kvs.find? (fun kv => kv.1 == k)).map (fun kv => kv.2)

/-- Truthiness of a `d.get(k)` result (`None` for a missing key is falsy). -/
def optTruthy : Option PyVal → Bool
  | Option.none => false
  | some v => pyTruthy v

/-- `len(v)` — raises `TypeError` on values without a length. -/
def pyLen : PyVal → Except PyErr Int
  | .vStr s => .ok s.data.length
  | .vList xs => .ok xs.length
  | .vDict kvs => .ok kvs.length
  | v => .error (.exc "TypeError" ("object of type \x27" ++ typeName v ++ "\x27 has no len()"))

/-- `v[0]` — raises `TypeError` when `v` is not subscriptable and
`IndexError` on an empty list (`parse` only reaches this after a
truthiness check). Strings index to their first character. -/
def pyIndexZero : PyVal → Except PyErr PyVal
  | .vList [] => .error (.exc "IndexError" "list index out of range")
  | .vList (x :: _) => .ok x
  | .vStr s =>
      match s.data with
      | [] => .error (.exc "IndexError" "string index out of range")
      | c :: _ => .ok (.vStr (String.mk [c]))
  | v => .error (.exc "TypeError" ("\x27" ++ typeName v ++ "\x27 object is not subscriptable"))

/-- `v.get(k)` — attribute access `get` fails with `AttributeError` on
non-dict values. -/
def pyGet (v : PyVal) (k : String) : Except PyErr (Option PyVal)
 := match v with
  | .vDict kvs => .ok (dictGet kvs k)
  | w => .error (.exc "AttributeError" ("\x27" ++ typeName w ++ "\x27 object has no attribute \x27get\x27"))

/-- `list(d.keys())` rendered as `PyVal` strings (empty for non-dicts,
which `parse` never reaches). -/
def keysOf : PyVal → List PyVal
  | .vDict kvs => kvs.map (fun kv => PyVal.vStr kv.1)
  | _ => []

/-! ## Decimal rendering (Python f-string interpolation of integers)

Python formats integers in decimal inside f-strings (`f"story_{n}"`,
`f"Scene {i + 1}"`, ...).  `decRepr` is a structurally recursive decimal
renderer; it is related to `Nat.digits 10` below to obtain injectivity. -/

/-- Little-endian decimal digits of `n` as characters, with fuel. -/
def decDigitsAux : Nat → Nat → List Char
  | 0, _ => []
  | fuel+1, n => if n = 0 then [] else Char.ofNat (n % 10 + 48) :: decDigitsAux fuel (n / 10)

/-- Decimal rendering of a natural number, as Python prints it. -/
def decRepr (n : Nat) : String :=
  if n = 0 then "0" else String.mk (decDigitsAux n n).reverse

/-! ## Data models (`src/models.py`) -/

/-- `ImageOptions` — request configuration (dataclass defaults as in the
source). -/
structure ImageOptions where
  model : String := "dall-e-3"
  size : String := "1024x1024"
  quality : String := "standard"
  style : String := "vivid"
  response_format : String := "url"
  n : Int := 1

/-- `ImageMetadata` — metadata attached to a parsed generation.
`revised_prompt` holds whatever value the response carried (`None` when
absent, matching `image_data.get("revised_prompt")`); `created_at` is the
epoch-second model of the Python `datetime`. -/
structure ImageMetadata where
  prompt : String
  revised_prompt : Option PyVal := Option.none
  size : String := "1024x1024"
  model : String := "dall-e-3"
  quality : Option String := Option.none
  style : Option String := Option.none
  created_at : Int

/-- `ImageResult` — the parsed generation result. `image_url` holds the
raw value taken from the response entry (`PyVal.vNone` both for a missing
key and a JSON `null`, exactly as Python's `dict.get`). -/
structure ImageResult where
  prompt : String
  image_url : PyVal := PyVal.vNone
  image_data : Option (List Nat) := Option.none
  metadata : Option ImageMetadata := Option.none
  file_path : Option String := Option.none
  generation_id : String := ""
  timestamp : Int

/-- `ImageResult.is_downloaded`. -/
def ImageResult.is_downloaded (r : ImageResult) : Bool := r.image_data.isSome

/-- `ImageResult.is_saved`. -/
def ImageResult.is_saved (r : ImageResult) : Bool := r.file_path.isSome

/-- `str(result)` (the `__str__` of `ImageResult`), used in error details. -/
def imageResultStr (r : ImageResult) : String :=
  let status :=
    (if r.is_downloaded then ["downloaded"] else []) ++
    (if r.is_saved then ["saved"] else [])
  let statusStr := if status.isEmpty then "" else " (" ++ String.intercalate ", " status ++ ")"
  "ImageResult(prompt=\x27" ++ String.mk (r.prompt.data.take 30) ++ "...\x27" ++ statusStr ++ ")"

/-- `StoryOptions` — story-run configuration (dataclass defaults as in the
source; `narration_speed` is a Python float modelled as a rational). -/
structure StoryOptions where
  story_prompt : String
  num_scenes : Nat := 5
  model : String := "dall-e-3"
  size : String := "1024x1024"
  quality : String := "standard"
  style : String := "vivid"
  enable_narration : Bool := false
  voice : String := "alloy"
  narration_speed : Rat := 1
  auto_save : Bool := true
  save_path : Option String := Option.none

/-- `StoryScene` — one scene of a decomposed story. -/
structure StoryScene where
  scene_number : Nat
  narrative : String
  image_prompt : String
  image_result : Option ImageResult := Option.none
  audio_file_path : Option String := Option.none
  audio_url : Option String := Option.none

/-- `StoryScene.is_generated`. -/
def StoryScene.is_generated (s : StoryScene) : Bool := s.image_result.isSome

/-- `StoryResult` — aggregate of a story run. `generation_time` is the
epoch-second start time; `total_generation_time` the elapsed seconds
(a Python float modelled as a rational). -/
structure StoryResult where
  story_prompt : String
  scenes : List StoryScene
  generation_time : Int
  total_generation_time : Rat := 0

/-- `StoryResult.num_scenes`. -/
def StoryResult.numScenes (r : StoryResult) : Nat := r.scenes.length

/-- `StoryResult.completed_scenes`. -/
def StoryResult.completed_scenes (r : StoryResult) : List StoryScene :=
  r.scenes.filter (fun s => s.is_generated)

/-- `StoryResult.failed_scenes`. -/
def StoryResult.failed_scenes (r : StoryResult) : List StoryScene :=
  r.scenes.filter (fun s => !s.is_generated)

/-- `StoryResult.success_rate` — percentage of completed scenes, `0.0`
for an empty scene list.  The Python float arithmetic is modelled by
exact rational arithmetic. -/
def StoryResult.success_rate (r : StoryResult) : Rat :=
  if r.scenes.isEmpty then 0
  else ((r.completed_scenes.length : Rat) / (r.scenes.length : Rat)) * 100

/-- `StoryResult.all_image_urls` — truthy URLs of completed scenes. -/
def StoryResult.all_image_urls (r : StoryResult) : List PyVal :=
  (r.completed_scenes.filterMap (fun s => s.image_result)).filterMap
    (fun ir => if pyTruthy ir.image_url then some ir.image_url else Option.none)

/-- `StoryResult.get_scene_filenames` — file paths of completed scenes. -/
def StoryResult.get_scene_filenames (r : StoryResult) : List String :=
  (r.completed_scenes.filterMap (fun s => s.image_result)).filterMap
    (fun ir => ir.file_path)

/-! ## Response parser (`src/parser.py`) -/

/-- Exception classes caught by `_parse_timestamp`'s handler
(`except (ValueError, TypeError, OSError)`). -/
def caughtByTsHandler (e : String) : Bool :=
  e == "ValueError" || e == "TypeError" || e == "OSError"

/-- Model of CPython's `datetime.fromtimestamp` on an integer argument
(Linux, 64-bit `time_t`): `OverflowError` outside the `time_t` range,
`ValueError`/`OSError` (both members of the caught class tuple, so their
distinction is immaterial after the handler) when the resulting year
falls outside the supported 1..9999 range, otherwise the datetime with
that epoch-second value. -/
def fromtimestampModel (t : Int) : Except String Int :=
  if t < -(2 ^ 63) ∨ (2 : Int) ^ 63 ≤ t then .error "OverflowError"
  else if t < -62135596800 ∨ 253402300799 < t then .error "ValueError"
  else .ok t

/-- `ImageResponseParser._parse_timestamp`.  `pf` is the composite
conversion `int(float(s))` of the string branch, returning the converted
integer or the raised exception's class name (CPython float semantics are
not re-modelled; every theorem below holds for every such conversion).
`nowT` is `datetime.now()`.  Python `bool` passes the `isinstance` chain
unconverted and reaches `fromtimestamp` as `0`/`1`; `list`/`dict` values
make `fromtimestamp` raise `TypeError`, which the handler catches. -/
def parseTimestamp (pf : String → Except String Int) (v : Option PyVal) (nowT : Int) :
    Except String Int :=
  match v with
  | Option.none => .ok nowT
  | some .vNone => .ok nowT
  | some (.vStr s) =>
      match pf s with
      | .error e => if caughtByTsHandler e then .ok nowT else .error e
      | .ok n =>
          match fromtimestampModel n with
          | .error e => if caughtByTsHandler e then .ok nowT else .error e
          | .ok d => .ok d
  | some (.vInt n) =>
      match fromtimestampModel n with
      | .error e => if caughtByTsHandler e then .ok nowT else .error e
      | .ok d => .ok d
  | some (.vBool b) =>
      match fromtimestampModel (if b then 1 else 0) with
      | .error e => if caughtByTsHandler e then .ok nowT else .error e
      | .ok d => .ok d
  | some (.vList _) => .ok nowT
  | some (.vDict _) => .ok nowT

/-- `ImageResponseParser.parse`.  Parameters beyond the response and the
prompt model the parser's effects: `b64dec` is `base64.b64decode`
(`none` for any raised decode exception, which the code catches and
wraps), `pf` the `int(float(s))` conversion inside `_parse_timestamp`,
`nowT` the value of `datetime.now()`, `uuidHex` the 8-hex-character
`uuid4` slice for the generation id. -/
def parse (b64dec : String → Option (List Nat)) (pf : String → Except String Int)
    (nowT : Int) (uuidHex : String) (response : PyVal) (prompt : String) :
    Except PyErr ImageResult :=
  match response with
  | .vDict kvs =>
    match dictGet kvs "data" with
    | Option.none =>
        .error (.img
          { code := "PARSING_ERROR"
            message := "No \x27data\x27 field in response"
            details := some (.vDict [("response_keys", .vList (kvs.map (fun kv => PyVal.vStr kv.1)))]) })
    | some dataList =>
      if !pyTruthy dataList then
        match pyLen dataList with
        | .error e => .error e
        | .ok len =>
            .error (.img
              { code := "PARSING_ERROR"
                message := "No images in response data"
                details := some (.vDict [("data_length", .vInt len)]) })
      else
        match pyIndexZero dataList with
        | .error e => .error e
        | .ok first =>
          match pyGet first "url" with
          | .error e => .error e
          | .ok imageUrl =>
            match pyGet first "b64_json" with
            | .error e => .error e
            | .ok b64Json =>
              if !optTruthy imageUrl && !optTruthy b64Json then
                .error (.img
                  { code := "PARSING_ERROR"
                    message := "No image URL or base64 data in response"
                    details := some (.vDict [("image_data_keys", .vList (keysOf first))]) })
              else
                match pyGet first "revised_prompt" with
                | .error e => .error e
                | .ok revised =>
                  match parseTimestamp pf (dictGet kvs "created") nowT with
                  | .error e => .error (.exc e "timestamp conversion failed")
                  | .ok createdAt =>
                    let metadata : ImageMetadata :=
                      { prompt := prompt
                        revised_prompt := revised
                        size := "1024x1024"
                        model := "dall-e-3"
                        quality := Option.none
                        style := Option.none
                        created_at := createdAt }
                    let result : ImageResult :=
                      { prompt := prompt
                        image_url := (imageUrl.getD PyVal.vNone)
                        image_data := Option.none
                        metadata := some metadata
                        file_path := Option.none
                        generation_id := "gen-" ++ uuidHex
                        timestamp := nowT }
                    match b64Json with
                    | some bv =>
                      if pyTruthy bv then
                        match bv with
                        | .vStr s =>
                          match b64dec s with
                          | some bytes => .ok { result with image_data := some bytes }
                          | Option.none =>
                              .error (.img
                                { code := "PARSING_ERROR"
                                  message := "Failed to decode base64 image data"
                                  details := some (.vDict [("error", .vStr "invalid base64")]) })
                        | _ =>
                            .error (.img
                              { code := "PARSING_ERROR"
                                message := "Failed to decode base64 image data"
                                details := some (.vDict [("error", .vStr "argument should be a bytes-like object or ASCII string")]) })
                      else .ok result
                    | Option.none => .ok result
  | other =>
      .error (.img
        { code := "PARSING_ERROR"
          message := "Response is not a valid dictionary"
          details := some (.vDict [("response_type", .vStr (typeName other))]) })

/-! ## Prompt validator (`ImageGenerationService.validate_prompt`) -/

/-- The ASCII whitespace recognised by `str.strip()` / regex `\s`. -/
def pySpaceChar (c : Char) : Bool :=
  c = ' ' || c = '\t' || c = '\n' || c = '\x0d' || c = '\x0b' || c = '\x0c'

/-- Regex `\w` (word character), ASCII fragment: alphanumerics and the
underscore. -/
def pyWordChar (c : Char) : Bool :=
  c.isAlphanum || c = '_'

/-- Substring containment (`term in prompt_lower`) on character lists. -/
def containsSub (t : List Char) : List Char → Bool
  | [] => t.isEmpty
  | c :: rest => t.isPrefixOf (c :: rest) || containsSub t rest

/-- The fixed denylist of `validate_prompt`. -/
def problematic_terms : List String := ["violence", "gore", "explicit"]

/-- `ImageGenerationService.validate_prompt`: rejects empty, all-whitespace
or over-4000-character prompts and prompts whose lowercase form contains a
denylisted term; otherwise accepts.  `str.lower` is modelled on the ASCII
alphabet by `Char.toLower`. -/
def validate_prompt (p : String) : Bool :=
  if p.data.isEmpty then false
  else if p.data.all pySpaceChar then false
  else if 4000 < p.data.length then false
  else if problematic_terms.any (fun t => containsSub t.data (p.data.map Char.toLower)) then false
  else true

/-! ## Filename sanitizer (`ImageGenerationService._generate_safe_filename`) -/

/-- `re.sub(r'[^\w\s-]', '', s)`: keep only word characters, whitespace
and hyphens. -/
def stripSpecial (l : List Char) : List Char :=
  l.filter (fun c => pyWordChar c || pySpaceChar c || c = '-')

/-- `re.sub(r'[-\s]+', '_', s)`: replace each maximal run of hyphens and
whitespace by a single underscore.  The boolean flag records whether the
previous character belonged to such a run. -/
def collapseRunsAux : Bool → List Char → List Char
  | _, [] => []
  | inRun, c :: rest =>
      if pySpaceChar c || c = '-' then
        if inRun then collapseRunsAux true rest
        else '_' :: collapseRunsAux true rest
      else c :: collapseRunsAux false rest

/-- `re.sub(r'[-\s]+', '_', s)` on a list with no run in progress. -/
def collapseRuns (l : List Char) : List Char := collapseRunsAux false l

/-- `s.rstrip('_')`. -/
def rstripUnderscore (l : List Char) : List Char :=
  (l.reverse.dropWhile (fun c => c = '_')).reverse

/-- The cleaned prompt component: lowercase, strip specials, collapse
hyphen/whitespace runs, truncate to 50 characters trimming a trailing
underscore (the truncation branch runs only above 50 characters). -/
def cleanPrompt (prompt : String) : List Char :=
  let cleaned := collapseRuns (stripSpecial (prompt.data.map Char.toLower))
  if 50 < cleaned.length then rstripUnderscore (cleaned.take 50) else cleaned

/-- `ImageGenerationService._generate_safe_filename`.  `tsStr` is the
`datetime.now().strftime("%Y%m%d_%H%M%S")` component, supplied as a
parameter. -/
def generateSafeFilename (prompt generationId tsStr : String) : String :=
  String.mk (cleanPrompt prompt ++ ('_' :: tsStr.data) ++ ('_' :: generationId.data) ++ ".png".data)

/-! ## Story folder allocation (`ImageGenerationService._get_next_story_folder`) -/

/-- `f"story_{n}"`. -/
def storyName (n : Nat) : String := String.mk ("story_".data ++ (decRepr n).data)

/-- The scanning loop of `_get_next_story_folder`: starting at `n`, return
the first candidate number whose folder name is not among the existing
entries.  The fuel bound `existing.length + 1` always suffices (proved
below); the loop in the source is unbounded. -/
def findFreeAux (existing : List String) : Nat → Nat → Nat
  | n, 0 => n
  | n, fuel+1 => if storyName n ∈ existing then findFreeAux existing (n + 1) fuel else n

/-- `ImageGenerationService._get_next_story_folder`, acting on the list of
entry names currently present in `baseDir`: returns the allocated path and
the directory state after `os.makedirs` created the folder. -/
def getNextStoryFolder (baseDir : String) (existing : List String) : String × List String :=
  let n := findFreeAux existing 1 (existing.length + 1)
  (baseDir ++ "/" ++ storyName n, storyName n :: existing)

/-! ## Image generation pipeline (`ImageGenerationService.generate_image`,
`download_and_save_image`) -/

/-- Outcome of the download-and-write step of `download_and_save_image`:
the downloaded bytes, a `requests.RequestException`, or an `OSError`
raised by `os.makedirs`/`open`/`write`. -/
inductive DlOutcome where
  | ok (bytes : List Nat) : DlOutcome
  | reqErr (msg : String) : DlOutcome
  | osErr (msg : String) : DlOutcome

/-- `ImageGenerationService.download_and_save_image`: guard on a truthy
URL, download, then write; translated to `DOWNLOAD_ERROR` / `SAVE_ERROR`
on failure, otherwise the result updated with the bytes and save path. -/
def download_and_save_image (download : PyVal → DlOutcome) (r : ImageResult)
    (savePath : String) : Except PyErr ImageResult :=
  if !pyTruthy r.image_url then
    .error (.img
      { code := "DOWNLOAD_ERROR"
        message := "No image URL available for download"
        details := some (.vDict [("result", .vStr (imageResultStr r))]) })
  else
    match download r.image_url with
    | .ok bytes => .ok { r with image_data := some bytes, file_path := some savePath }
    | .reqErr m =>
        .error (.img
          { code := "DOWNLOAD_ERROR"
            message := "Failed to download image: " ++ m
            details := some (.vDict [("url", r.image_url), ("error", .vStr m)]) })
    | .osErr m =>
        .error (.img
          { code := "SAVE_ERROR"
            message := "Failed to save image: " ++ m
            details := some (.vDict [("save_path", .vStr savePath), ("error", .vStr m)]) })

/-- The external effects of one `generate_image` call: the outcome of the
client request (`raw`), the base64 decoder and timestamp conversion used
by the parser, `datetime.now()` (`nowT`), the fresh uuid slice, the
`strftime("%Y%m%d_%H%M%S")` component, and the download behaviour keyed
by the URL value. -/
structure GenEnv where
  raw : Except PyErr PyVal
  b64dec : String → Option (List Nat)
  pf : String → Except String Int
  nowT : Int
  uuidHex : String
  tsStr : String
  download : PyVal → DlOutcome

/-- The client-call-plus-parse prefix of `generate_image`'s `try` block. -/
def runParse (env : GenEnv) (prompt : String) : Except PyErr ImageResult :=
  match env.raw with
  | .error e => .error e
  | .ok raw => parse env.b64dec env.pf env.nowT env.uuidHex raw prompt

/-- The `except` clauses of `generate_image`: `ImageError` is re-raised,
any other exception is wrapped as `GENERATION_FAILED`. -/
def wrapGenTry : Except PyErr ImageResult → Except PyErr ImageResult
  | .error (.img e) => .error (.img e)
  | .error (.exc n m) =>
      .error (.img
        { code := "GENERATION_FAILED"
          message := "Image generation failed: " ++ pyErrStr (.exc n m)
          details := some (.vDict [("original_error", .vStr (pyErrStr (.exc n m)))]) })
  | .ok r => .ok r

/-- `ImageGenerationService.generate_image`: validate the prompt (a
`ValueError` raised before the `try` block), call the client, parse, then
download-and-save only when `auto_save` is set and the parsed result has
a truthy URL.  `_options` only shapes the client payload, whose outcome
`env.raw` already reflects. -/
def generate_image (env : GenEnv) (prompt : String) (_options : Option ImageOptions)
    (auto_save : Bool) (save_dir : String) : Except PyErr ImageResult :=
  if !validate_prompt prompt then
    .error (.exc "ValueError" "Invalid prompt: must be non-empty and under 4000 characters")
  else
    wrapGenTry
      (match runParse env prompt with
       | .error e => .error e
       | .ok result =>
         if auto_save && pyTruthy result.image_url then
           download_and_save_image env.download result
             (save_dir ++ "/" ++ generateSafeFilename prompt result.generation_id env.tsStr)
         else .ok result)

/-! ## Story decomposition (`ImageGenerationClient.decompose_story`) -/

/-- One entry of the upstream decomposition response, a JSON object with
optional string fields `narrative` and `image_prompt` (the shape the
fixed system instruction requests). -/
structure SceneData where
  narrative : Option String := Option.none
  image_prompt : Option String := Option.none

/-- The parsed JSON of the chat-completion response: an object carrying a
`scenes` key, a bare array, or anything else. -/
inductive DecompResponse where
  | dictWithScenes (scenes : List SceneData) : DecompResponse
  | bareList (scenes : List SceneData) : DecompResponse
  | other : DecompResponse

/-- `f"Scene {i + 1}"`, the fallback text for a missing field of entry `i`. -/
def defaultSceneText (i : Nat) : String := "Scene " ++ decRepr (i + 1)

/-- The `StoryScene` built from upstream entry `i` (0-based):
`scene_number = i + 1`, with the source's `get` fallbacks. -/
def mkScene (i : Nat) (d : SceneData) : StoryScene :=
  { scene_number := i + 1
    narrative := d.narrative.getD (defaultSceneText i)
    image_prompt := d.image_prompt.getD (d.narrative.getD (defaultSceneText i)) }

/-- The placeholder scene appended by the reconciliation `while` loop when
the upstream response was short; `n` is its 1-based number. -/
def placeholderScene (storyPrompt : String) (n : Nat) : StoryScene :=
  { scene_number := n
    narrative := "Additional scene " ++ decRepr n
    image_prompt := "Continue the story of " ++ storyPrompt ++ ", scene " ++ decRepr n }

/-- `enumerate`-style map, carrying the running index. -/
def mapIdxFrom (f : Nat → α → β) : Nat → List α → List β
  | _, [] => []
  | j, a :: as => f j a :: mapIdxFrom f (j + 1) as

/-- Count reconciliation of `decompose_story`: keep at most `K` upstream
entries (`scene_list[:K]`), then pad with placeholder scenes until the
count is `K` (each appended scene numbered `len + 1` at append time). -/
def reconcileScenes (K : Nat) (storyPrompt : String) (l : List SceneData) : List StoryScene :=
  let initial := mapIdxFrom mkScene 0 (l.take K)
  initial ++ (List.range (K - initial.length)).map
    (fun j => placeholderScene storyPrompt (initial.length + j + 1))

/-- `ImageGenerationClient.decompose_story`, from the parsed JSON of the
upstream chat completion onward: accept an object with a `scenes` key or
a bare array, raise `STORY_PARSING_ERROR` otherwise, then reconcile the
scene count. -/
def decompose_story (opts : StoryOptions) (resp : DecompResponse) :
    Except PyErr (List StoryScene) :=
  match resp with
  | .dictWithScenes l => .ok (reconcileScenes opts.num_scenes opts.story_prompt l)
  | .bareList l => .ok (reconcileScenes opts.num_scenes opts.story_prompt l)
  | .other =>
      .error (.img { code := "STORY_PARSING_ERROR", message := "Unexpected response format from GPT" })

/-! ## Story orchestration (`ImageGenerationService.generate_story`) -/

/-- The external effects of one story run: the outcome of
`client.decompose_story`, the base-directory listing for folder
allocation, a per-scene-index `GenEnv` for the image pipeline, the
per-scene narration-synthesis and audio-write outcomes, the start time
and the measured elapsed seconds. -/
structure StoryEnv where
  decomposeRes : Except PyErr (List StoryScene)
  baseExisting : List String
  sceneEnv : Nat → GenEnv
  narr : Nat → Except PyErr (List Nat)
  audioWrite : Nat → Except PyErr Unit
  startTime : Int
  durationSec : Rat

/-- The per-scene `ImageOptions` built from the story's shared settings. -/
def storyImageOptions (opts : StoryOptions) : ImageOptions :=
  { model := opts.model, size := opts.size, quality := opts.quality, style := opts.style }

/-- The image-generation call of the per-scene loop (`generate_image`
with the story folder as save directory when auto-saving, without saving
otherwise). -/
def sceneImageCall (opts : StoryOptions) (env : StoryEnv) (folder : Option String)
    (j : Nat) (scene : StoryScene) : Except PyErr ImageResult :=
  if opts.auto_save && folder.isSome then
    generate_image (env.sceneEnv j) scene.image_prompt (some (storyImageOptions opts))
      true (folder.getD "")
  else
    generate_image (env.sceneEnv j) scene.image_prompt (some (storyImageOptions opts))
      false "generated_images"

/-- The body of the per-scene loop of `generate_story` for the scene at
0-based index `j`: generate the image from the scene's `image_prompt`
(into the story folder when auto-saving), then optionally narrate.  Any
failure of the image step leaves the scene unchanged (the `except` /
`continue`); a narration or audio-write failure keeps the image result. -/
def sceneStep (opts : StoryOptions) (env : StoryEnv) (folder : Option String)
    (j : Nat) (scene : StoryScene) : StoryScene :=
  match sceneImageCall opts env folder j scene with
  | .error _ => scene
  | .ok r =>
    let withImage := { scene with image_result := some r }
    if opts.enable_narration then
      match env.narr j with
      | .error _ => withImage
      | .ok _ =>
        if opts.auto_save && folder.isSome then
          match env.audioWrite j with
          | .error _ => withImage
          | .ok _ =>
              { withImage with
                audio_file_path :=
                  some (folder.getD "" ++ "/scene_" ++ decRepr (j + 1) ++ "_narration.mp3") }
        else withImage
    else withImage

/-- The `except` clause of `generate_story`: an `ImageError` is re-raised
unchanged, anything else is wrapped as `STORY_GENERATION_ERROR`. -/
def storyWrapTry : Except PyErr StoryResult → Except PyErr StoryResult
  | .error (.img e) => .error (.img e)
  | .error (.exc n m) =>
      .error (.img
        { code := "STORY_GENERATION_ERROR"
          message := "Failed to generate story: " ++ pyErrStr (.exc n m) })
  | .ok r => .ok r

/-- The story folder allocated by a run: one fresh sequential folder when
auto-saving, `None` otherwise. -/
def storyFolderOf (opts : StoryOptions) (env : StoryEnv) : Option String :=
  if opts.auto_save then
    some (getNextStoryFolder "generated_images" env.baseExisting).1
  else Option.none

/-- `ImageGenerationService.generate_story`: decompose (fatal on failure),
allocate one fresh story folder when auto-saving, run the per-scene loop
strictly in order, and assemble the `StoryResult` from all scenes. -/
def generate_story (opts : StoryOptions) (env : StoryEnv) : Except PyErr StoryResult :=
  storyWrapTry
    (match env.decomposeRes with
     | .error e => .error e
     | .ok scenes =>
       let outScenes := mapIdxFrom (sceneStep opts env (storyFolderOf opts env)) 0 scenes
       .ok { story_prompt := opts.story_prompt
             scenes := outScenes
             generation_time := env.startTime
             total_generation_time := env.durationSec })

/-! ## Safe character set of sanitized filenames -/

/-- The character set a sanitized filename may contain: word characters,
underscore, hyphen and dot. -/
def safeFilenameChar (c : Char) : Bool :=
  pyWordChar c || c = '_' || c = '-' || c = '.'

/-! ## Concrete environments and values used by the witnesses -/

/-- A `GenEnv` whose client call fails, for concrete instantiations. -/
def failingGenEnv : GenEnv :=
  { raw := .error (.img { code := "API_ERROR", message := "API request failed: down" })
    b64dec := fun _ => Option.none
    pf := fun _ => .error "ValueError"
    nowT := 0
    uuidHex := "deadbeef"
    tsStr := "20260101_000000"
    download := fun _ => .reqErr "no network" }

/-- A `StoryEnv` whose decomposition raises a non-domain exception. -/
def decompFailStoryEnv : StoryEnv :=
  { decomposeRes := .error (.exc "KeyError" "boom")
    baseExisting := []
    sceneEnv := fun _ => failingGenEnv
    narr := fun _ => .error (.exc "APIError" "tts down")
    audioWrite := fun _ => .ok ()
    startTime := 0
    durationSec := 0 }

/-- A one-entry upstream scene list for concrete instantiation. -/
def c2List : List SceneData :=
  [{ narrative := some "A cat packs", image_prompt := some "A cat packing a suitcase" }]

/-- The environment of a base64-only response (no `url` field). -/
def c10Env : GenEnv :=
  { raw := .ok (.vDict [("created", .vInt 1698700000),
      ("data", .vList [.vDict [("b64_json", .vStr "aGk=")]])])
    b64dec := fun _ => some [104, 105]
    pf := fun _ => .error "ValueError"
    nowT := 1700000000
    uuidHex := "deadbeef"
    tsStr := "20260101_000000"
    download := fun _ => .reqErr "unreachable" }

/-- The metadata `parse` produces for `c10Env`. -/
def c10Meta : ImageMetadata :=
  { prompt := "a cat"
    revised_prompt := Option.none
    size := "1024x1024"
    model := "dall-e-3"
    quality := Option.none
    style := Option.none
    created_at := 1698700000 }

/-- The result `parse` produces for `c10Env`. -/
def c10Res : ImageResult :=
  { prompt := "a cat"
    image_url := PyVal.vNone
    image_data := some [104, 105]
    metadata := some c10Meta
    file_path := Option.none
    generation_id := "gen-deadbeef"
    timestamp := 1700000000 }

/-- A `GenEnv` whose client call returns a one-image URL response. -/
def c1OkEnv : GenEnv :=
  { raw := .ok (.vDict [("created", .vInt 100),
      ("data", .vList [.vDict [("url", .vStr "https://img.example/1.png")]])])
    b64dec := fun _ => Option.none
    pf := fun _ => .error "ValueError"
    nowT := 0
    uuidHex := "aaaa0001"
    tsStr := "20260101_000000"
    download := fun _ => .ok [1] }

/-- Two freshly decomposed scenes. -/
def c1Scenes : List StoryScene :=
  [{ scene_number := 1, narrative := "The dog sets out", image_prompt := "a dog at dawn" },
   { scene_number := 2, narrative := "The dog returns", image_prompt := "a dog at dusk" }]

/-- A 2-scene story run without narration or auto-save. -/
def c1Opts : StoryOptions :=
  { story_prompt := "a dog goes on a trip"
    num_scenes := 2
    enable_narration := false
    auto_save := false }

/-- A story environment in which scene 1's image call succeeds and scene
2's image call (scene 2 of 2) raises. -/
def c1Env : StoryEnv :=
  { decomposeRes := .ok c1Scenes
    baseExisting := []
    sceneEnv := fun j => if j = 0 then c1OkEnv else failingGenEnv
    narr := fun _ => .error (.exc "APIError" "tts down")
    audioWrite := fun _ => .ok ()
    startTime := 0
    durationSec := 3 }

/-- The metadata of scene 1's parsed image result in the `c1Env` run. -/
def c1ImgMeta : ImageMetadata :=
  { prompt := "a dog at dawn"
    revised_prompt := Option.none
    size := "1024x1024"
    model := "dall-e-3"
    quality := Option.none
    style := Option.none
    created_at := 100 }

/-- The parsed image result of scene 1 in the `c1Env` run. -/
def c1Img : ImageResult :=
  { prompt := "a dog at dawn"
    image_url := PyVal.vStr "https://img.example/1.png"
    image_data := Option.none
    metadata := some c1ImgMeta
    file_path := Option.none
    generation_id := "gen-aaaa0001"
    timestamp := 0 }

/-- The story result of the `c1Env` run: scene 1 completed, scene 2 not. -/
def c1Result : StoryResult :=
  { story_prompt := "a dog goes on a trip"
    scenes := [{ scene_number := 1, narrative := "The dog sets out",
                 image_prompt := "a dog at dawn", image_result := some c1Img },
               { scene_number := 2, narrative := "The dog returns",
                 image_prompt := "a dog at dusk" }]
    generation_time := 0
    total_generation_time := 3 }

/-! # Theorems -/

/-! ## C8 — success rate -/

/-- C8: for every `StoryResult`, `success_rate` equals
(completed scenes / total scenes) * 100, and for the empty scene list it
is `0.0` with no division error (the model's total function witnesses
that no exception is raised). -/
theorem claim_C8_success_rate (r : StoryResult) :
    r.success_rate = ((r.completed_scenes.length : Rat) / (r.scenes.length : Rat)) * 100 ∧
      (r.scenes = [] → r.success_rate = 0) := by
  constructor
  · rw [StoryResult.success_rate]
    split
    · next h =>
        rw [List.isEmpty_iff] at h
        simp [StoryResult.completed_scenes, h]
    · rfl
  · intro h
    simp [StoryResult.success_rate, h]

/-- C8 witness: the formula and the empty-list case at concrete inputs. -/
theorem claim_C8_success_rate_witness :
    StoryResult.success_rate { story_prompt := "p", scenes := [], generation_time := 0 } = 0 :=
  (claim_C8_success_rate { story_prompt := "p", scenes := [], generation_time := 0 }).2 rfl

/-! ## C4 — decomposition failure is fatal -/

/-- C4: any error raised during story decomposition aborts the run with
no partial `StoryResult`: an `ImageError` is propagated unchanged, any
other exception is wrapped and raised as `STORY_GENERATION_ERROR`. -/
theorem claim_C4_decomposition_fatal (opts : StoryOptions) (env : StoryEnv) (e : PyErr)
    (h : env.decomposeRes = .error e) :
    (∀ ie, e = .img ie → generate_story opts env = .error (.img ie)) ∧
    (∀ n m, e = .exc n m →
      generate_story opts env =
        .error (.img { code := "STORY_GENERATION_ERROR"
                       message := "Failed to generate story: " ++ pyErrStr (.exc n m) })) := by
  constructor
  · intro ie he
    subst he
    rw [generate_story, h]
    rfl
  · intro n m he
    subst he
    rw [generate_story, h]
    rfl

/-- C4 witness: a non-domain decomposition failure at a concrete input is
wrapped as `STORY_GENERATION_ERROR` and the run returns no result. -/
theorem claim_C4_decomposition_fatal_witness :
    generate_story { story_prompt := "p" } decompFailStoryEnv =
      .error (.img { code := "STORY_GENERATION_ERROR"
                     message := "Failed to generate story: boom" }) :=
  (claim_C4_decomposition_fatal { story_prompt := "p" } decompFailStoryEnv
    (.exc "KeyError" "boom") rfl).2 "KeyError" "boom" rfl

/-! ## C7 — timestamp parsing (code bug: `OverflowError` is not caught) -/

/-- C7 (code bug evidence): `_parse_timestamp`'s handler catches only
`ValueError`, `TypeError` and `OSError`, but `datetime.fromtimestamp`
raises `OverflowError` for an integer outside the platform `time_t`
range (and `int(float(s))` raises `OverflowError` for a string such as
`"1e999"` whose float value is infinite), so a response whose `created`
field is `10 ^ 30` makes timestamp parsing raise instead of falling back
to the current time — and `parse` propagates that exception. -/
theorem claim_C7_timestamp_overflow_raises :
    (∀ pf nowT, parseTimestamp pf (some (.vInt (10 ^ 30))) nowT = .error "OverflowError") ∧
    (∀ pf nowT,
      pf "1e999" = .error "OverflowError" →
      parseTimestamp pf (some (.vStr "1e999")) nowT = .error "OverflowError") ∧
    (∀ b64dec pf nowT uuidHex prompt,
      parse b64dec pf nowT uuidHex
        (.vDict [("created", .vInt (10 ^ 30)),
                 ("data", .vList [.vDict [("url", .vStr "https://x/img.png")]])]) prompt =
        .error (.exc "OverflowError" "timestamp conversion failed")) := by
  refine ⟨fun pf nowT => ?_, fun pf nowT hpf => ?_, fun b64dec pf nowT uuidHex prompt => ?_⟩
  · rfl
  · rw [parseTimestamp, hpf]
    rfl
  · rfl

/-! ## C5 — prompt validation -/

/-- `containsSub` decides substring containment. -/
theorem containsSub_iff (t : List Char) :
    ∀ l : List Char, containsSub t l = true ↔ ∃ pre post, l = pre ++ (t ++ post) := by
  intro l
  induction l with
  | nil =>
    rw [containsSub]
    constructor
    · intro h
      rw [List.isEmpty_iff] at h
      exact ⟨[], [], by simp [h]⟩
    · rintro ⟨pre, post, h⟩
      have h2 := List.append_eq_nil.1 h.symm
      have h3 := List.append_eq_nil.1 h2.2
      rw [List.isEmpty_iff]
      exact h3.1
  | cons c rest ih =>
    rw [containsSub, Bool.or_eq_true, ih, List.isPrefixOf_iff_prefix]
    constructor
    · rintro (⟨post, hpost⟩ | ⟨pre, post, rfl⟩)
      · exact ⟨[], post, by simp [hpost.symm]⟩
      · exact ⟨c :: pre, post, rfl⟩
    · rintro ⟨pre, post, hl⟩
      cases pre with
      | nil =>
        left
        exact ⟨post, by simpa using hl.symm⟩
      | cons p ps =>
        right
        simp only [List.cons_append, List.cons.injEq] at hl
        exact ⟨ps, post, hl.2⟩

/-- C5: `validate_prompt P` is `false` exactly when `P` is empty or
all-whitespace, longer than 4000 characters, or contains (after ASCII
lowercasing) a term of the fixed denylist; it is a pure function of its
argument (a Lean function, so determinism and absence of side effects
are inherent to the model). -/
theorem claim_C5_validate_prompt (p : String) :
    validate_prompt p = false ↔
      ((∀ c ∈ p.data, pySpaceChar c = true) ∨
       4000 < p.data.length ∨
       ∃ t ∈ problematic_terms, ∃ pre post,
         p.data.map Char.toLower = pre ++ (t.data ++ post)) := by
  rw [validate_prompt]
  split_ifs with h1 h2 h3 h4
  · refine iff_of_true rfl (Or.inl ?_)
    rw [List.isEmpty_iff] at h1
    intro c hc
    rw [h1] at hc
    cases hc
  · refine iff_of_true rfl (Or.inl ?_)
    exact List.all_eq_true.1 h2
  · exact iff_of_true rfl (Or.inr (Or.inl h3))
  · refine iff_of_true rfl (Or.inr (Or.inr ?_))
    obtain ⟨t, ht, hc⟩ := List.any_eq_true.1 h4
    exact ⟨t, ht, (containsSub_iff t.data _).1 hc⟩
  · refine iff_of_false (by simp) ?_
    rintro (hall | hlen | ⟨t, ht, pre, post, hsub⟩)
    · exact h2 (List.all_eq_true.2 hall)
    · exact h3 hlen
    · exact h4 (List.any_eq_true.2 ⟨t, ht, (containsSub_iff t.data _).2 ⟨pre, post, hsub⟩⟩)

/-! ## C2 — decomposition returns exactly K scenes -/

/-- Length of an `enumerate`-style map. -/
theorem mapIdxFrom_length (f : Nat → α → β) :
    ∀ (j : Nat) (l : List α), (mapIdxFrom f j l).length = l.length
  | _, [] => rfl
  | j, _ :: as => by
      rw [mapIdxFrom, List.length_cons, List.length_cons, mapIdxFrom_length f (j + 1) as]

/-- Element access in an `enumerate`-style map. -/
theorem mapIdxFrom_getElem? (f : Nat → α → β) :
    ∀ (j i : Nat) (l : List α), (mapIdxFrom f j l)[i]? = (l[i]?).map (f (j + i))
  | _, _, [] => by simp [mapIdxFrom]
  | j, 0, a :: as => by simp [mapIdxFrom]
  | j, i + 1, a :: as => by
      rw [mapIdxFrom]
      simp only [List.getElem?_cons_succ]
      rw [mapIdxFrom_getElem? f (j + 1) i as]
      have h : j + 1 + i = j + (i + 1) := by omega
      rw [h]

/-- Element access in the reconciled scene list: entries below
`min K l.length` come from the upstream list, entries up to `K` are
placeholders, nothing lies beyond `K`. -/
theorem reconcileScenes_getElem? (K : Nat) (p : String) (l : List SceneData) (i : Nat) :
    (reconcileScenes K p l)[i]? =
      if i < min K l.length then (l[i]?).map (mkScene i)
      else if i < K then some (placeholderScene p (i + 1))
      else Option.none := by
  have hlen : (mapIdxFrom mkScene 0 (l.take K)).length = min K l.length := by
    rw [mapIdxFrom_length, List.length_take]
  rw [reconcileScenes, List.getElem?_append, hlen]
  split_ifs with h1 h2
  · rw [mapIdxFrom_getElem?, List.getElem?_take]
    rw [if_pos (show i < K by omega)]
    simp only [Nat.zero_add]
  · rw [List.getElem?_map,
      List.getElem?_range (show i - min K l.length < K - min K l.length by omega)]
    have harg : min K l.length + (i - min K l.length) + 1 = i + 1 := by omega
    simp only [Option.map_some']
    rw [harg]
  · refine List.getElem?_eq_none ?_
    rw [List.length_map, List.length_range]
    omega

/-- Length of the reconciled scene list: always exactly `K`. -/
theorem reconcileScenes_length (K : Nat) (p : String) (l : List SceneData) :
    (reconcileScenes K p l).length = K := by
  rw [reconcileScenes, List.length_append, mapIdxFrom_length, List.length_take,
    List.length_map, List.length_range]
  omega

/-- C2: for every requested scene count and every upstream scene list
(of any length), `decompose_story` succeeds with exactly `num_scenes`
scenes, numbered contiguously from 1 in upstream order; positions covered
by the upstream list hold the scene built from its entry, and positions
beyond it hold the synthesized placeholder scenes. -/
theorem claim_C2_decompose_reconciles (opts : StoryOptions) (l : List SceneData)
    (resp : DecompResponse)
    (h : resp = DecompResponse.dictWithScenes l ∨ resp = DecompResponse.bareList l) :
    ∃ scenes, decompose_story opts resp = .ok scenes ∧
      scenes.length = opts.num_scenes ∧
      (∀ i, i < opts.num_scenes → ∃ s, scenes[i]? = some s ∧ s.scene_number = i + 1) ∧
      (∀ i d, i < opts.num_scenes → l[i]? = some d → scenes[i]? = some (mkScene i d)) ∧
      (∀ i, l.length ≤ i → i < opts.num_scenes →
        scenes[i]? = some (placeholderScene opts.story_prompt (i + 1))) := by
  have hdec : decompose_story opts resp =
      .ok (reconcileScenes opts.num_scenes opts.story_prompt l) := by
    rcases h with rfl | rfl <;> rfl
  refine ⟨reconcileScenes opts.num_scenes opts.story_prompt l, hdec,
    reconcileScenes_length _ _ _, ?_, ?_, ?_⟩
  · intro i hi
    rw [reconcileScenes_getElem?]
    split_ifs with h1
    · have hil : i < l.length := by omega
      refine ⟨mkScene i l[i], ?_, rfl⟩
      rw [List.getElem?_eq_getElem hil]
      rfl
    · exact ⟨placeholderScene opts.story_prompt (i + 1), rfl, rfl⟩
  · intro i d hi hd
    have hil : i < l.length := by
      by_contra hc
      rw [List.getElem?_eq_none (by omega)] at hd
      cases hd
    rw [reconcileScenes_getElem?, if_pos (by omega), hd]
    rfl
  · intro i hli hi
    rw [reconcileScenes_getElem?, if_neg (by omega), if_pos hi]

/-- C2 witness: a 3-scene request over a 1-entry upstream response yields
exactly 3 scenes — the upstream scene followed by two placeholders. -/
theorem claim_C2_decompose_reconciles_witness :
    (∃ scenes,
        decompose_story { story_prompt := "cat trip", num_scenes := 3 }
            (DecompResponse.bareList c2List) = .ok scenes ∧
          scenes.length = 3) ∧
    decompose_story { story_prompt := "cat trip", num_scenes := 3 }
        (DecompResponse.bareList c2List) =
      .ok [mkScene 0 { narrative := some "A cat packs",
                       image_prompt := some "A cat packing a suitcase" },
           placeholderScene "cat trip" 2, placeholderScene "cat trip" 3] ∧
    (placeholderScene "cat trip" 2).narrative = "Additional scene 2" ∧
    (mkScene 0 { narrative := some "A cat packs",
                 image_prompt := some "A cat packing a suitcase" }).scene_number = 1 := by
  refine ⟨?_, rfl, rfl, rfl⟩
  obtain ⟨scenes, h1, h2, -, -, -⟩ :=
    claim_C2_decompose_reconciles { story_prompt := "cat trip", num_scenes := 3 } c2List
      (DecompResponse.bareList c2List) (Or.inr rfl)
  exact ⟨scenes, h1, h2⟩

/-! ## C6 — parse failure modes -/

/-- C6: `parse` raises a `PARSING_ERROR`-kind failure (and returns no
result) when the response is not a dict, when its `data` list is missing
or empty, and when the first entry object has neither a truthy `url` nor
a truthy `b64_json`; in the last case the entry's keys are carried in the
error details. -/
theorem claim_C6_parse_errors (b64dec : String → Option (List Nat))
    (pf : String → Except String Int) (nowT : Int) (uuidHex : String) (prompt : String) :
    (∀ response : PyVal, (∀ kvs, response ≠ PyVal.vDict kvs) →
      parse b64dec pf nowT uuidHex response prompt =
        .error (.img
          { code := "PARSING_ERROR"
            message := "Response is not a valid dictionary"
            details := some (.vDict [("response_type", .vStr (typeName response))]) })) ∧
    (∀ kvs, dictGet kvs "data" = Option.none →
      parse b64dec pf nowT uuidHex (.vDict kvs) prompt =
        .error (.img
          { code := "PARSING_ERROR"
            message := "No \x27data\x27 field in response"
            details := some (.vDict [("response_keys",
              .vList (kvs.map (fun kv => PyVal.vStr kv.1)))]) })) ∧
    (∀ kvs, dictGet kvs "data" = some (.vList []) →
      parse b64dec pf nowT uuidHex (.vDict kvs) prompt =
        .error (.img
          { code := "PARSING_ERROR"
            message := "No images in response data"
            details := some (.vDict [("data_length", .vInt 0)]) })) ∧
    (∀ kvs ekvs rest, dictGet kvs "data" = some (.vList (PyVal.vDict ekvs :: rest)) →
      optTruthy (dictGet ekvs "url") = false →
      optTruthy (dictGet ekvs "b64_json") = false →
      parse b64dec pf nowT uuidHex (.vDict kvs) prompt =
        .error (.img
          { code := "PARSING_ERROR"
            message := "No image URL or base64 data in response"
            details := some (.vDict [("image_data_keys",
              .vList (ekvs.map (fun kv => PyVal.vStr kv.1)))]) })) := by
  refine ⟨?_, ?_, ?_, ?_⟩
  · intro response h
    cases response with
    | vDict kvs => exact absurd rfl (h kvs)
    | vNone => rfl
    | vBool b => rfl
    | vInt n => rfl
    | vStr s => rfl
    | vList xs => rfl
  · intro kvs h
    simp only [parse]
    rw [h]
  · intro kvs h
    simp only [parse]
    rw [h]
    rfl
  · intro kvs ekvs rest h hu hb
    simp only [parse]
    rw [h]
    simp only [pyTruthy, pyIndexZero, pyGet, keysOf, List.isEmpty_cons, Bool.not_false,
      Bool.and_self, if_true]
    rw [hu, hb]
    rfl

/-- C6 witness: a response with an empty image-entry list at a concrete
input raises `PARSING_ERROR` and returns no partially-built result. -/
theorem claim_C6_parse_errors_witness :
    parse (fun _ => Option.none) (fun _ => .error "ValueError") 0 "deadbeef"
        (.vDict [("created", .vInt 100), ("data", .vList [])]) "a cat" =
      .error (.img
        { code := "PARSING_ERROR"
          message := "No images in response data"
          details := some (.vDict [("data_length", .vInt 0)]) }) :=
  (claim_C6_parse_errors (fun _ => Option.none) (fun _ => .error "ValueError") 0 "deadbeef"
    "a cat").2.2.1 [("created", .vInt 100), ("data", .vList [])] rfl

/-! ## C10 — auto-save is skipped without a URL -/

/-- `parse` never sets `file_path`: every successfully parsed result is
unsaved. -/
theorem parse_ok_file_path (b64dec : String → Option (List Nat))
    (pf : String → Except String Int) (nowT : Int) (uuidHex : String)
    (response : PyVal) (prompt : String) (r : ImageResult)
    (h : parse b64dec pf nowT uuidHex response prompt = .ok r) :
    r.file_path = Option.none := by
  cases response <;> simp only [parse] at h
  case vDict kvs =>
    repeat' split at h
    all_goals first
      | exact Except.noConfusion h
      | (cases h; rfl)
  all_goals exact Except.noConfusion h

/-- C10 (implicit behaviour): with `auto_save` enabled, the
download-and-save step runs only for a truthy parsed URL — when the
parsed result carries no URL (e.g. a base64-only response), the result is
returned successfully with `file_path` unset and `is_saved` false, and no
error is raised. -/
theorem claim_C10_auto_save_requires_url (env : GenEnv) (prompt save_dir : String)
    (opts : Option ImageOptions) (r : ImageResult)
    (hv : validate_prompt prompt = true)
    (hp : runParse env prompt = .ok r)
    (hu : pyTruthy r.image_url = false) :
    generate_image env prompt opts true save_dir = .ok r ∧
      r.file_path = Option.none ∧ r.is_saved = false := by
  have hfp : r.file_path = Option.none := by
    rw [runParse] at hp
    cases hraw : env.raw with
    | error e => rw [hraw] at hp; exact Except.noConfusion hp
    | ok raw => rw [hraw] at hp; exact parse_ok_file_path _ _ _ _ _ _ _ hp
  refine ⟨?_, hfp, by rw [ImageResult.is_saved, hfp]; rfl⟩
  rw [generate_image, if_neg (by rw [hv]; simp), hp]
  simp [hu, wrapGenTry]

/-- C10 witness: a concrete base64-only response under `auto_save` is
returned downloaded-but-unsaved, with no error. -/
theorem claim_C10_auto_save_requires_url_witness :
    validate_prompt "a cat" = true ∧ runParse c10Env "a cat" = .ok c10Res ∧
      pyTruthy c10Res.image_url = false ∧
      generate_image c10Env "a cat" Option.none true "generated_images" = .ok c10Res ∧
      c10Res.file_path = Option.none ∧ c10Res.is_saved = false ∧
      c10Res.image_data = some [104, 105] := by
  have h := claim_C10_auto_save_requires_url c10Env "a cat" "generated_images" Option.none
    c10Res rfl rfl rfl
  exact ⟨rfl, rfl, rfl, h.1, h.2.1, h.2.2, rfl⟩

/-! ## C3 — story folder allocation -/

/-- The fuelled decimal renderer agrees with `Nat.digits 10`. -/
theorem decDigitsAux_eq : ∀ fuel n, n ≤ fuel →
    decDigitsAux fuel n = (Nat.digits 10 n).map (fun d => Char.ofNat (d + 48)) := by
  intro fuel
  induction fuel with
  | zero =>
    intro n hn
    have h0 : n = 0 := by omega
    subst h0
    rw [decDigitsAux, Nat.digits_zero]
    rfl
  | succ f ih =>
    intro n hn
    by_cases h0 : n = 0
    · subst h0
      rw [decDigitsAux, if_pos rfl, Nat.digits_zero]
      rfl
    · rw [decDigitsAux, if_neg h0,
        Nat.digits_def' (by norm_num : (1 : Nat) < 10) (Nat.pos_of_ne_zero h0),
        List.map_cons, ih (n / 10) ?_]
      have := Nat.div_lt_self (Nat.pos_of_ne_zero h0) (by norm_num : 1 < 10)
      omega

/-- Decimal digit characters decode back to their digit. -/
theorem digitVal_round : ∀ d, d < 10 → (Char.ofNat (d + 48)).toNat - 48 = d := by decide

/-- Decoding the digit characters of `Nat.digits 10 a` recovers the digits. -/
theorem digits_map_roundtrip (a : Nat) :
    ((Nat.digits 10 a).map (fun d => Char.ofNat (d + 48))).map (fun c => c.toNat - 48) =
      Nat.digits 10 a := by
  rw [List.map_map]
  have h : ∀ d ∈ Nat.digits 10 a,
      ((fun c : Char => c.toNat - 48) ∘ fun d : Nat => Char.ofNat (d + 48)) d = id d := by
    intro d hd
    have hlt : d < 10 := Nat.digits_lt_base (by norm_num) hd
    simpa using digitVal_round d hlt
  rw [List.map_congr_left h, List.map_id]

/-- Digit-character lists determine the number. -/
theorem digitsCharInj {a b : Nat}
    (h : (Nat.digits 10 a).map (fun d => Char.ofNat (d + 48)) =
         (Nat.digits 10 b).map (fun d => Char.ofNat (d + 48))) : a = b := by
  have h2 : Nat.digits 10 a = Nat.digits 10 b := by
    have h1 := congrArg (List.map (fun c : Char => c.toNat - 48)) h
    rwa [digits_map_roundtrip, digits_map_roundtrip] at h1
  have ha := Nat.ofDigits_digits 10 a
  have hb := Nat.ofDigits_digits 10 b
  rw [h2, hb] at ha
  exact_mod_cast ha.symm

/-- Strings with equal character data are equal. -/
theorem stringDataInj {s t : String} (h : s.data = t.data) : s = t := by
  cases s
  cases t
  exact congrArg String.mk h

/-- A nonzero number never renders as `"0"`. -/
theorem decRepr_ne_zeroStr {b : Nat} (hb : b ≠ 0) : decRepr b ≠ "0" := by
  intro hab
  rw [decRepr, if_neg hb] at hab
  have hd : (decDigitsAux b b).reverse = ['0'] := congrArg String.data hab
  rw [decDigitsAux_eq b b le_rfl] at hd
  have h2 : (Nat.digits 10 b).map (fun d => Char.ofNat (d + 48)) = ['0'] := by
    have h1 := congrArg List.reverse hd
    simpa using h1
  have h3 : Nat.digits 10 b = [0] := by
    have h1 := congrArg (List.map (fun c : Char => c.toNat - 48)) h2
    rw [digits_map_roundtrip] at h1
    simpa using h1
  have hofd := Nat.ofDigits_digits 10 b
  rw [h3] at hofd
  simp [Nat.ofDigits] at hofd
  exact hb hofd.symm

/-- The decimal renderer is injective. -/
theorem decRepr_inj : ∀ a b : Nat, decRepr a = decRepr b → a = b := by
  intro a b hab
  by_cases ha : a = 0 <;> by_cases hb : b = 0
  · rw [ha, hb]
  · exfalso
    subst ha
    rw [show decRepr 0 = "0" from rfl] at hab
    exact decRepr_ne_zeroStr hb hab.symm
  · exfalso
    subst hb
    rw [show decRepr 0 = "0" from rfl] at hab
    exact decRepr_ne_zeroStr ha hab
  · rw [decRepr, if_neg ha, decRepr, if_neg hb] at hab
    have hd : (decDigitsAux a a).reverse = (decDigitsAux b b).reverse :=
      congrArg String.data hab
    have h2 := congrArg List.reverse hd
    simp only [List.reverse_reverse] at h2
    rw [decDigitsAux_eq a a le_rfl, decDigitsAux_eq b b le_rfl] at h2
    exact digitsCharInj h2

/-- `f"story_{n}"` is injective in `n`. -/
theorem storyName_inj {a b : Nat} (h : storyName a = storyName b) : a = b := by
  have hd : "story_".data ++ (decRepr a).data = "story_".data ++ (decRepr b).data :=
    congrArg String.data h
  exact decRepr_inj a b (stringDataInj (List.append_cancel_left hd))

/-- The scanning loop, given enough fuel to reach a free number, returns
the least free number at or above its start. -/
theorem findFreeAux_spec (existing : List String) :
    ∀ fuel start, (∃ k, k < fuel ∧ storyName (start + k) ∉ existing) →
      start ≤ findFreeAux existing start fuel ∧
      storyName (findFreeAux existing start fuel) ∉ existing ∧
      (∀ i, start ≤ i → i < findFreeAux existing start fuel → storyName i ∈ existing) := by
  intro fuel
  induction fuel with
  | zero =>
    intro start h
    obtain ⟨k, hk, _⟩ := h
    omega
  | succ f ih =>
    intro start h
    simp only [findFreeAux]
    split_ifs with hmem
    · obtain ⟨k, hk, hfree⟩ := h
      have hk0 : k ≠ 0 := by
        rintro rfl
        exact hfree (by simpa using hmem)
      have hshift : start + 1 + (k - 1) = start + k := by omega
      have hrec := ih (start + 1) ⟨k - 1, by omega, by rw [hshift]; exact hfree⟩
      refine ⟨by omega, hrec.2.1, ?_⟩
      intro i hi1 hi2
      rcases Nat.eq_or_lt_of_le hi1 with rfl | hlt
      · exact hmem
      · exact hrec.2.2 i (by omega) hi2
    · exact ⟨le_rfl, hmem, fun i hi1 hi2 => absurd hi2 (by omega)⟩

/-- Pigeonhole: among the first `existing.length + 1` candidate numbers,
at least one `story_<N>` name is not among the existing entries. -/
theorem exists_free_story_name (existing : List String) :
    ∃ k, k < existing.length + 1 ∧ storyName (1 + k) ∉ existing := by
  by_contra hc
  push_neg at hc
  have hinj : Function.Injective fun k : Nat => storyName (1 + k) := by
    intro x y hxy
    have hxy2 : 1 + x = 1 + y := storyName_inj hxy
    omega
  have hsub : (Finset.range (existing.length + 1)).image (fun k => storyName (1 + k)) ⊆
      existing.toFinset := by
    intro x hx
    rw [Finset.mem_image] at hx
    obtain ⟨k, hk, rfl⟩ := hx
    rw [List.mem_toFinset]
    exact hc k (Finset.mem_range.1 hk)
  have hcard := Finset.card_le_card hsub
  rw [Finset.card_image_of_injective _ hinj, Finset.card_range] at hcard
  have hle : existing.toFinset.card ≤ existing.length := List.toFinset_card_le existing
  omega

/-- C3: for every base directory state, allocation returns the
lowest-numbered `story_<N>` (N ≥ 1) not yet present, adds exactly that
folder to the directory (never reusing an existing one), and concretely:
an empty base dir yields `story_1`, a base dir holding `story_1` yields
`story_2`. -/
theorem claim_C3_folder_allocation :
    (∀ (baseDir : String) (existing : List String), ∃ N, 1 ≤ N ∧
      getNextStoryFolder baseDir existing =
        (baseDir ++ "/" ++ storyName N, storyName N :: existing) ∧
      storyName N ∉ existing ∧
      (∀ m, 1 ≤ m → m < N → storyName m ∈ existing)) ∧
    getNextStoryFolder "generated_images" [] =
      ("generated_images/story_1", ["story_1"]) ∧
    getNextStoryFolder "generated_images" ["story_1"] =
      ("generated_images/story_2", ["story_2", "story_1"]) := by
  refine ⟨?_, by decide, by decide⟩
  intro baseDir existing
  obtain ⟨k, hk, hfree⟩ := exists_free_story_name existing
  have hspec := findFreeAux_spec existing (existing.length + 1) 1 ⟨k, hk, hfree⟩
  exact ⟨findFreeAux existing 1 (existing.length + 1), hspec.1, rfl, hspec.2.1,
    fun m hm1 hm2 => hspec.2.2 m hm1 hm2⟩

/-! ## C9 — filename sanitizer -/

/-- Characters surviving the run-collapsing step are underscores or
non-hyphen non-whitespace characters of the input. -/
theorem collapseRunsAux_mem : ∀ (b : Bool) (l : List Char) (c : Char),
    c ∈ collapseRunsAux b l →
    c = '_' ∨ (c ∈ l ∧ pySpaceChar c = false ∧ c ≠ '-') := by
  intro b l
  induction l generalizing b with
  | nil =>
    intro c hc
    rw [collapseRunsAux] at hc
    cases hc
  | cons a as ih =>
    intro c hc
    rw [collapseRunsAux] at hc
    split_ifs at hc with h1 h2
    · rcases ih true c hc with h | ⟨hm, hs, hd⟩
      · exact Or.inl h
      · exact Or.inr ⟨List.mem_cons_of_mem a hm, hs, hd⟩
    · rcases List.mem_cons.1 hc with rfl | hc2
      · exact Or.inl rfl
      · rcases ih true c hc2 with h | ⟨hm, hs, hd⟩
        · exact Or.inl h
        · exact Or.inr ⟨List.mem_cons_of_mem a hm, hs, hd⟩
    · rcases List.mem_cons.1 hc with rfl | hc2
      · refine Or.inr ⟨List.mem_cons_self _ _, ?_, ?_⟩
        · revert h1
          by_cases hs : pySpaceChar c = true <;> simp [hs]
        · intro hdash
          exact h1 (by simp [hdash])
      · rcases ih false c hc2 with h | ⟨hm, hs, hd⟩
        · exact Or.inl h
        · exact Or.inr ⟨List.mem_cons_of_mem a hm, hs, hd⟩

/-- `rstrip('_')` keeps a subset of the characters. -/
theorem rstripUnderscore_mem {l : List Char} {c : Char} (h : c ∈ rstripUnderscore l) :
    c ∈ l := by
  rw [rstripUnderscore, List.mem_reverse] at h
  exact List.mem_reverse.1 ((List.dropWhile_sublist _).mem h)

/-- `rstrip('_')` does not lengthen a list. -/
theorem rstripUnderscore_length (l : List Char) :
    (rstripUnderscore l).length ≤ l.length := by
  rw [rstripUnderscore, List.length_reverse]
  calc (l.reverse.dropWhile (fun c => c = '_')).length
      ≤ l.reverse.length := (List.dropWhile_sublist _).length_le
    _ = l.length := List.length_reverse l

/-- Every character of the cleaned prompt component is a word character
or an underscore. -/
theorem cleanPrompt_mem (p : String) :
    ∀ c ∈ cleanPrompt p, pyWordChar c = true ∨ c = '_' := by
  intro c hc
  have hcore : ∀ d, d ∈ collapseRuns (stripSpecial (p.data.map Char.toLower)) →
      pyWordChar d = true ∨ d = '_' := by
    intro d hd
    rcases collapseRunsAux_mem false _ d hd with h | ⟨hm, hs, hdash⟩
    · exact Or.inr h
    · have hf := List.mem_filter.1 hm
      have hcond := hf.2
      simp only [Bool.or_eq_true] at hcond
      rcases hcond with (hw | hsp) | hda
      · exact Or.inl hw
      · rw [hs] at hsp
        cases hsp
      · exact absurd (by simpa using hda) hdash
  rw [cleanPrompt] at hc
  split_ifs at hc with h50
  · exact hcore c ((List.take_sublist 50 _).mem (rstripUnderscore_mem hc))
  · exact hcore c hc

/-- The cleaned prompt component has at most 50 characters. -/
theorem cleanPrompt_length (p : String) : (cleanPrompt p).length ≤ 50 := by
  rw [cleanPrompt]
  split_ifs with h50
  · calc (rstripUnderscore ((collapseRuns (stripSpecial (p.data.map Char.toLower))).take 50)).length
        ≤ ((collapseRuns (stripSpecial (p.data.map Char.toLower))).take 50).length :=
          rstripUnderscore_length _
      _ ≤ 50 := by rw [List.length_take]; omega
  · omega

/-- C9 (amended): for every prompt and every generation id drawn from the
repository's id format (at most 12 characters over the safe character
set, as the parser's `gen-<8 hex>` ids are) and every
`strftime("%Y%m%d_%H%M%S")` component (15 safe characters), the produced
filename always ends with `_<generation_id>.png`, has at most 83 ≤ ~110
characters, and contains only safe characters — in particular no path
separator (`/` and `\` are not safe characters). -/
theorem claim_C9_safe_filename (prompt generationId tsStr : String)
    (hgidLen : generationId.data.length ≤ 12)
    (hgidChars : ∀ c ∈ generationId.data, safeFilenameChar c = true)
    (htsLen : tsStr.data.length = 15)
    (htsChars : ∀ c ∈ tsStr.data, safeFilenameChar c = true) :
    (∃ pre, (generateSafeFilename prompt generationId tsStr).data =
        pre ++ ('_' :: (generationId.data ++ ".png".data))) ∧
      (generateSafeFilename prompt generationId tsStr).data.length ≤ 83 ∧
      (∀ c ∈ (generateSafeFilename prompt generationId tsStr).data,
        safeFilenameChar c = true) ∧
      safeFilenameChar '/' = false ∧ safeFilenameChar '\\' = false := by
  refine ⟨⟨cleanPrompt prompt ++ ('_' :: tsStr.data), ?_⟩, ?_, ?_, by decide, by decide⟩
  · rw [generateSafeFilename]
    simp [List.append_assoc]
  · rw [generateSafeFilename]
    simp only [List.length_append, List.length_cons, List.length_nil]
    have h1 := cleanPrompt_length prompt
    omega
  · intro c hc
    rw [generateSafeFilename] at hc
    simp only [List.mem_append, List.mem_cons, List.not_mem_nil, or_false] at hc
    rcases hc with ((hcp | rfl | hts) | rfl | hgid) | rfl | rfl | rfl | rfl
    · rcases cleanPrompt_mem prompt c hcp with hw | rfl
      · simp [safeFilenameChar, hw]
      · decide
    · decide
    · exact htsChars c hts
    · decide
    · exact hgidChars c hgid
    · decide
    · decide
    · decide
    · decide

set_option maxRecDepth 8192 in
/-- C9 counterexample: for an adversarial generation id (the claim
quantifies over every prompt and generation id) the filename contains the
path separator `/` and exceeds 110 characters. -/
theorem claim_C9_safe_filename_counterexample :
    '/' ∈ (generateSafeFilename "cat" (String.mk (List.replicate 120 '/'))
        "20260101_000000").data ∧
      110 < (generateSafeFilename "cat" (String.mk (List.replicate 120 '/'))
        "20260101_000000").data.length := by
  decide

/-- C9 witness: the documented example prompt with a parser-format id and
a concrete timestamp satisfies the amended bounds, and produces exactly
the expected name. -/
theorem claim_C9_safe_filename_witness :
    ((∃ pre, (generateSafeFilename "A cat wearing a space helmet!" "gen-abc12345"
          "20260101_000000").data =
        pre ++ ('_' :: ("gen-abc12345".data ++ ".png".data))) ∧
      (generateSafeFilename "A cat wearing a space helmet!" "gen-abc12345"
          "20260101_000000").data.length ≤ 83 ∧
      (∀ c ∈ (generateSafeFilename "A cat wearing a space helmet!" "gen-abc12345"
          "20260101_000000").data, safeFilenameChar c = true) ∧
      safeFilenameChar '/' = false ∧ safeFilenameChar '\\' = false) ∧
    generateSafeFilename "A cat wearing a space helmet!" "gen-abc12345" "20260101_000000" =
      "a_cat_wearing_a_space_helmet_20260101_000000_gen-abc12345.png" := by
  refine ⟨claim_C9_safe_filename _ _ _ (by decide) (by decide) (by decide) (by decide), ?_⟩
  decide

/-! ## C1 — per-scene failures are tolerated -/

/-- A failing image step leaves the scene record untouched (the
`except`/`continue` of the loop body). -/
theorem sceneStep_of_error (opts : StoryOptions) (env : StoryEnv) (folder : Option String)
    (j : Nat) (s : StoryScene) (e : PyErr)
    (h : sceneImageCall opts env folder j s = .error e) :
    sceneStep opts env folder j s = s := by
  rw [sceneStep, h]

/-- A successful image step installs the result and preserves the scene's
number and narrative, whatever the narration steps do. -/
theorem sceneStep_of_ok (opts : StoryOptions) (env : StoryEnv) (folder : Option String)
    (j : Nat) (s : StoryScene) (res : ImageResult)
    (h : sceneImageCall opts env folder j s = .ok res) :
    (sceneStep opts env folder j s).image_result = some res ∧
      (sceneStep opts env folder j s).scene_number = s.scene_number ∧
      (sceneStep opts env folder j s).narrative = s.narrative := by
  rw [sceneStep, h]
  cases hn : opts.enable_narration
  · exact ⟨rfl, rfl, rfl⟩
  · cases hnarr : env.narr j with
    | error e => exact ⟨rfl, rfl, rfl⟩
    | ok bytes =>
      cases hb : (opts.auto_save && folder.isSome)
      · exact ⟨rfl, rfl, rfl⟩
      · cases hw : env.audioWrite j with
        | error e => exact ⟨rfl, rfl, rfl⟩
        | ok u => exact ⟨rfl, rfl, rfl⟩

/-- C1: when decomposition succeeds, the run always returns a
`StoryResult` containing every scene in original order (same length, same
1-based numbers and narratives); a scene whose image step raises is left
with no generation result and no audio path while the loop continues, and
a scene whose image step succeeds carries its result. -/
theorem claim_C1_scene_failures_tolerated (opts : StoryOptions) (env : StoryEnv)
    (scenes : List StoryScene)
    (hdec : env.decomposeRes = .ok scenes)
    (hfresh : ∀ s ∈ scenes, s.image_result = Option.none ∧ s.audio_file_path = Option.none) :
    ∃ r, generate_story opts env = .ok r ∧
      r.scenes.length = scenes.length ∧
      (∀ j s, scenes[j]? = some s →
        ∃ t, r.scenes[j]? = some t ∧
          t.scene_number = s.scene_number ∧ t.narrative = s.narrative ∧
          (∀ e, sceneImageCall opts env (storyFolderOf opts env) j s = .error e →
            t.image_result = Option.none ∧ t.audio_file_path = Option.none) ∧
          (∀ res, sceneImageCall opts env (storyFolderOf opts env) j s = .ok res →
            t.image_result = some res)) := by
  refine ⟨{ story_prompt := opts.story_prompt,
            scenes := mapIdxFrom (sceneStep opts env (storyFolderOf opts env)) 0 scenes,
            generation_time := env.startTime,
            total_generation_time := env.durationSec }, ?_, ?_, ?_⟩
  · rw [generate_story, hdec]
    rfl
  · exact mapIdxFrom_length _ _ _
  · intro j s hjs
    refine ⟨sceneStep opts env (storyFolderOf opts env) j s, ?_, ?_, ?_, ?_, ?_⟩
    · show (mapIdxFrom (sceneStep opts env (storyFolderOf opts env)) 0 scenes)[j]? = _
      rw [mapIdxFrom_getElem?, hjs]
      simp
    · cases hcall : sceneImageCall opts env (storyFolderOf opts env) j s with
      | error e => rw [sceneStep_of_error _ _ _ _ _ _ hcall]
      | ok res => exact (sceneStep_of_ok _ _ _ _ _ _ hcall).2.1
    · cases hcall : sceneImageCall opts env (storyFolderOf opts env) j s with
      | error e => rw [sceneStep_of_error _ _ _ _ _ _ hcall]
      | ok res => exact (sceneStep_of_ok _ _ _ _ _ _ hcall).2.2
    · intro e he
      rw [sceneStep_of_error _ _ _ _ _ _ he]
      have hmem : s ∈ scenes := by
        obtain ⟨hlt, heq⟩ := List.getElem?_eq_some_iff.1 hjs
        exact heq ▸ List.getElem_mem hlt
      exact hfresh s hmem
    · exact fun res hres => (sceneStep_of_ok _ _ _ _ _ _ hres).1

/-- C1 witness: scene 2 of 2 raising during image generation still yields
a `StoryResult` with 2 scenes, scene 1 completed, scene 2 not completed,
and a success rate of 50.0. -/
theorem claim_C1_scene_failures_tolerated_witness :
    (∃ r, generate_story c1Opts c1Env = .ok r ∧ r.scenes.length = 2) ∧
      generate_story c1Opts c1Env = .ok c1Result ∧
      c1Result.scenes.map (fun s => s.is_generated) = [true, false] ∧
      StoryResult.success_rate c1Result = 50 := by
  refine ⟨?_, rfl, rfl, ?_⟩
  · have hfresh : ∀ s ∈ c1Scenes,
        s.image_result = Option.none ∧ s.audio_file_path = Option.none := by
      intro s hs
      simp only [c1Scenes, List.mem_cons, List.not_mem_nil, or_false] at hs
      rcases hs with rfl | rfl
      · exact ⟨rfl, rfl⟩
      · exact ⟨rfl, rfl⟩
    obtain ⟨r, h1, h2, -⟩ :=
      claim_C1_scene_failures_tolerated c1Opts c1Env c1Scenes rfl hfresh
    exact ⟨r, h1, by rw [h2]; rfl⟩
  · rw [StoryResult.success_rate]
    norm_num [c1Result, StoryResult.completed_scenes, StoryScene.is_generated,
      List.filter]

end WebHosting
